import Mathlib

/-!
A shallow embedding of the release-checking pipeline of `src/lib.rs` of
cargo-semver-checks: scope resolution (`Scope::selected_packages`), the
builder configuration (`Check::with_*` setters), and the orchestration of
`Check::check_release`.

External collaborators that live outside `lib.rs` (cargo metadata loading,
rustdoc generation via `dump::RustDocCommand`, the baseline loaders of
`baseline.rs`, and `run_check_release` of `check_release.rs`) are modelled
as parameters gathered in `Env`, assumed to succeed; the side-effecting
calls `lib.rs` makes to them are recorded in an explicit `Effect` trace in
exactly the order the code performs them.  A Rust panic (`expect`) is
modelled as `Option.none` respectively `CheckErr.crash`; `anyhow::bail!`
as `CheckErr.config` carrying the bailed message.  Logging/verbosity
(`GlobalConfig`, `log_level`, `shell_status`) is presentation-only in the
source and is elided.
-/

namespace CargoSemverChecks

/-- `cargo_metadata::PackageId`: an opaque unique package identifier. -/
structure PackageId where
  id : String
deriving DecidableEq, Repr

/-- `cargo_metadata::Package`, restricted to the fields `lib.rs` reads:
`id`, `name`, `version`, `manifest_path`, `publish`. -/
structure Package where
  id : PackageId
  name : String
  version : String
  manifest_path : String
  publish : Option (List String)
deriving DecidableEq, Repr

/-- The dependency-resolution part of `cargo_metadata::Metadata`
(its `resolve` field), restricted to the `root` field `lib.rs` reads. -/
structure Resolve where
  root : Option PackageId
deriving DecidableEq, Repr

/-- `cargo_metadata::Metadata`, restricted to the fields `lib.rs` reads. -/
structure Metadata where
  workspace_members : List PackageId
  packages : List Package
  resolve : Option Resolve
deriving DecidableEq, Repr

/-- `ScopeSelection`: which packages to analyze. -/
inductive ScopeSelection where
  /-- Package to process (see `cargo help pkgid`) -/
  | Packages (patterns : List String)
  /-- All packages in the workspace. Equivalent to `--workspace`. -/
  | Workspace
  /-- Default members of the workspace (the default). -/
  | DefaultMembers
deriving DecidableEq, Repr

/-- `Scope`: a selection mode plus an exclusion list. -/
structure Scope where
  selection : ScopeSelection
  excluded_packages : List String
deriving DecidableEq, Repr

/-- The `Baseline` enum of `lib.rs`: exactly one variant is active. -/
inductive Baseline where
  /-- Version from registry to lookup for a baseline. E.g. "1.0.0". -/
  | Version (v : String)
  /-- Git revision to lookup for a baseline. -/
  | Revision (rev : String)
  /-- Directory containing baseline crate source. -/
  | Root (path : String)
  /-- The rustdoc json file to use as a semver baseline. -/
  | RustDoc (path : String)
  /-- Latest version published to the cargo registry (the default). -/
  | LatestVersion
deriving DecidableEq, Repr

/-- The `Current` enum of `lib.rs`: current version of the project. -/
inductive Current where
  /-- Path to the manifest of the current version of the project. -/
  | Manifest (path : String)
  /-- The rustdoc json of the current version of the project. -/
  | RustDoc (path : String)
  /-- Use the manifest in the current directory (the default). -/
  | CurrentDir
deriving DecidableEq, Repr

/-- The `Check` struct of `lib.rs` (the `log_level` field is elided:
it only tunes logging). -/
structure Check where
  scope : Scope
  current : Current
  baseline : Baseline
deriving DecidableEq, Repr

/-- `Scope::selected_packages`.  The `HashSet`s of the source are modelled
as lists with `contains` membership; the returned list keeps the iteration
order of `meta.packages`, as the source's final `filter` does.  The
`expect("no-deps is unsupported")` panic on a missing `meta.resolve` is
modelled as `none`. -/
def Scope.selected_packages (s : Scope) (meta : Metadata) : Option (List Package) :=
  let workspace_members := meta.workspace_members
  let base_ids : Option (List PackageId) :=
    match s.selection with
    | .DefaultMembers =>
      match meta.resolve with
      | none => none
      | some resolve =>
        match resolve.root with
        | some root => some [root]
        | none => some workspace_members
    | .Workspace => some workspace_members
    | .Packages patterns =>
      some ((meta.packages.filter
        (fun p => workspace_members.contains p.id && patterns.contains p.name)).map Package.id)
  base_ids.map (fun ids =>
    meta.packages.filter (fun p => ids.contains p.id && !(s.excluded_packages.contains p.name)))

/-- `Check::new` / `Check::default`: default scope (default members, no
exclusions), current directory, latest published version as baseline. -/
def Check.new : Check :=
  { scope := { selection := .DefaultMembers, excluded_packages := [] },
    current := .CurrentDir,
    baseline := .LatestVersion }

/-- `Check::with_manifest`. -/
def Check.with_manifest (c : Check) (path : String) : Check :=
  { c with current := .Manifest path }

/-- `Check::with_workspace`. -/
def Check.with_workspace (c : Check) : Check :=
  { c with scope := { c.scope with selection := .Workspace } }

/-- `Check::with_packages`. -/
def Check.with_packages (c : Check) (packages : List String) : Check :=
  { c with scope := { c.scope with selection := .Packages packages } }

/-- `Check::with_excluded_packages`. -/
def Check.with_excluded_packages (c : Check) (excluded_packages : List String) : Check :=
  { c with scope := { c.scope with excluded_packages := excluded_packages } }

/-- `Check::with_current_rustdoc`. -/
def Check.with_current_rustdoc (c : Check) (rustdoc : String) : Check :=
  { c with current := .RustDoc rustdoc }

/-- `Check::with_baseline_version`. -/
def Check.with_baseline_version (c : Check) (version : String) : Check :=
  { c with baseline := .Version version }

/-- `Check::with_baseline_revision`. -/
def Check.with_baseline_revision (c : Check) (revision : String) : Check :=
  { c with baseline := .Revision revision }

/-- `Check::with_baseline_root`. -/
def Check.with_baseline_root (c : Check) (root : String) : Check :=
  { c with baseline := .Root root }

/-- `Check::with_baseline_rustdoc`. -/
def Check.with_baseline_rustdoc (c : Check) (rustdoc : String) : Check :=
  { c with baseline := .RustDoc rustdoc }

/-- `Check::manifest_path`: bails (`anyhow::bail!`) when the current side
is a prebuilt rustdoc file. -/
def Check.manifest_path (c : Check) : Except String String :=
  match c.current with
  | .Manifest path => .ok path
  | .RustDoc _ => .error "error: RustDoc is not supported with these arguments."
  | .CurrentDir => .ok "Cargo.toml"

/-- One side-effecting call `Check::check_release` makes to a collaborator,
recorded in source order. -/
inductive Effect where
  /-- `manifest_metadata_no_deps`: `cargo metadata --no-deps` execution. -/
  | metadataExecNoDeps
  /-- `manifest_metadata`: full `cargo metadata` execution. -/
  | metadataExec
  /-- `baseline::RegistryBaseline::new` (registry cache setup). -/
  | registryNew
  /-- `baseline::GitBaseline::with_rev` (git checkout into the cache). -/
  | gitFetch (rev : String)
  /-- `baseline::PathBaseline::new` on a local source root. -/
  | pathBaselineNew (root : String)
  /-- `rustdoc_cmd.dump`: generate the current snapshot of one package. -/
  | dump (manifest : String)
  /-- `loader.load_rustdoc`: request the baseline snapshot of one crate. -/
  | loadBaseline (crate : String) (version : Option String)
  /-- `run_check_release`: one comparison of a snapshot pair. -/
  | runCheck (crate : String)
deriving DecidableEq, Repr

/-- How a run of `check_release` aborts: `config` is an `anyhow::bail!` /
configuration error carrying the message, `crash` a Rust panic (`expect`). -/
inductive CheckErr where
  | config (msg : String)
  | crash (msg : String)
deriving DecidableEq, Repr

/-- One entry of the `rustdoc_paths` vector of `check_release`:
(crate name, baseline snapshot path, current snapshot path). -/
abbrev Triple := String × String × String

/-- The external collaborators of `lib.rs`, assumed to succeed:
the metadata both `cargo metadata` executions return, the path
`rustdoc_cmd.dump` produces for a manifest, the path
`loader.load_rustdoc` produces for a (crate name, optional version)
request, and the verdict of `run_check_release` on
(crate name, current path, baseline path). -/
structure Env where
  metadata : Metadata
  dump : String → String
  load_rustdoc_baseline : String → Option String → String
  run_check : String → String → String → Bool

/-- The baseline-loader construction step of `Check::check_release`
(the `match &self.baseline` block), in source order: `Version`,
`Revision` and `LatestVersion` first run `manifest_metadata_no_deps`,
whose `manifest_path` call bails when the current side is a prebuilt
rustdoc; `Root` and `RustDoc` never touch the manifest.
`semver::Version::parse` and the loader constructors' own failure
modes live outside `lib.rs` and are modelled as succeeding. -/
def Check.loaderStep (c : Check) : List Effect × Except CheckErr Unit :=
  match c.baseline with
  | .Version _ =>
    match c.manifest_path with
    | .error e => ([], .error (.config e))
    | .ok _ => ([.metadataExecNoDeps, .registryNew], .ok ())
  | .Revision rev =>
    match c.manifest_path with
    | .error e => ([], .error (.config e))
    | .ok _ => ([.metadataExecNoDeps, .gitFetch rev], .ok ())
  | .Root root => ([.pathBaselineNew root], .ok ())
  | .RustDoc _ => ([], .ok ())
  | .LatestVersion =>
    match c.manifest_path with
    | .error e => ([], .error (.config e))
    | .ok _ => ([.metadataExecNoDeps, .registryNew], .ok ())

/-- One iteration of the `for selected in selected` loop of
`Check::check_release`: a package skipped by the implied-workspace /
non-publishable test (`is_implied && selected.publish == Some(vec![])`)
contributes nothing (the `continue` branch only logs); otherwise the
current snapshot is dumped and then the baseline requested, and one
`rustdoc_paths` triple is pushed. -/
def Check.pkgBlock (c : Check) (env : Env) (p : Package) : List Effect × List Triple :=
  if c.scope.selection = ScopeSelection.Workspace ∧ p.publish = some [] then
    ([], [])
  else
    ([.dump p.manifest_path, .loadBaseline p.name (some p.version)],
     [(p.name, env.load_rustdoc_baseline p.name (some p.version), env.dump p.manifest_path)])

/-- The `match &self.current` block of `Check::check_release`, producing
the `rustdoc_paths` vector.  A prebuilt current rustdoc requests the
baseline under the placeholder crate name `"<unknown>"` with no version;
otherwise `manifest_metadata` runs, `selected_packages` resolves the
scope (its `expect` panic propagated as `CheckErr.crash`), and the
package loop accumulates effects and triples in order. -/
def Check.currentStep (c : Check) (env : Env) : List Effect × Except CheckErr (List Triple) :=
  match c.current with
  | .RustDoc rustdoc_path =>
    ([.loadBaseline "<unknown>" none],
     .ok [("<unknown>", env.load_rustdoc_baseline "<unknown>" none, rustdoc_path)])
  | _ =>
    match c.scope.selected_packages env.metadata with
    | none => ([.metadataExec], .error (.crash "no-deps is unsupported"))
    | some sel =>
      let res := sel.foldl
        (fun acc p => (acc.1 ++ (c.pkgBlock env p).1, acc.2 ++ (c.pkgBlock env p).2))
        ([.metadataExec], [])
      (res.1, .ok res.2)

/-- The `Report` struct: the aggregate success flag. -/
structure Report where
  success : Bool
deriving DecidableEq, Repr

/-- `Report::success`. -/
def Report.success_flag (r : Report) : Bool :=
  r.success

/-- The aggregation loop at the end of `Check::check_release`:
`success` starts `true` and is set to `false` by every triple whose
`run_check_release` verdict is negative (every triple is still
evaluated; there is no short-circuit). -/
def aggregate_success (env : Env) (paths : List Triple) : Bool :=
  paths.foldl (fun success t => if env.run_check t.1 t.2.2 t.2.1 then success else false) true

/-- `Check::check_release`: baseline-loader construction, then the
current-side step building `rustdoc_paths`, then the aggregation loop
over the snapshot pairs. -/
def Check.check_release (c : Check) (env : Env) : List Effect × Except CheckErr Report :=
  match c.loaderStep with
  | (tr, .error e) => (tr, .error e)
  | (tr, .ok ()) =>
    match c.currentStep env with
    | (tr2, .error e) => (tr ++ tr2, .error e)
    | (tr2, .ok paths) =>
      (tr ++ tr2 ++ paths.map (fun t => Effect.runCheck t.1),
       .ok { success := aggregate_success env paths })

/-! Concrete fixtures used to evaluate the model on closed inputs. -/

/-- A publishable workspace package named `a`. -/
def pkgA : Package :=
  { id := { id := "id-a" }, name := "a", version := "1.0.0",
    manifest_path := "a/Cargo.toml", publish := none }

/-- A workspace package named `b` marked non-publishable
(`publish = Some(vec![])`). -/
def pkgB : Package :=
  { id := { id := "id-b" }, name := "b", version := "0.3.0",
    manifest_path := "b/Cargo.toml", publish := some [] }

/-- A workspace with members `a` and `b`, resolution data present,
no default-build root. -/
def meta1 : Metadata :=
  { workspace_members := [pkgA.id, pkgB.id],
    packages := [pkgA, pkgB],
    resolve := some { root := none } }

/-- Like `meta1` but with `a` as the default-build root. -/
def metaRootA : Metadata :=
  { meta1 with resolve := some { root := some pkgA.id } }

/-- Metadata missing its dependency-resolution data (`resolve: None`,
as `cargo metadata --no-deps` would produce). -/
def metaNoResolve : Metadata :=
  { meta1 with resolve := none }

/-- An empty workspace. -/
def metaEmpty : Metadata :=
  { workspace_members := [], packages := [], resolve := some { root := none } }

/-- Collaborators over `meta1`, every comparison passing. -/
def env1 : Env :=
  { metadata := meta1,
    dump := fun m => m ++ "/current.json",
    load_rustdoc_baseline := fun n _ => n ++ "/baseline.json",
    run_check := fun _ _ _ => true }

/-- Collaborators over the empty workspace. -/
def env0 : Env :=
  { env1 with metadata := metaEmpty }

/-- Collaborators over `metaRootA`. -/
def envRootA : Env :=
  { env1 with metadata := metaRootA }

/-- Collaborators over resolve-less metadata. -/
def envNoResolve : Env :=
  { env1 with metadata := metaNoResolve }

/-! Closed forms for the two folds of `check_release`. -/

/-- The accumulating pair-fold of the package loop equals the in-order
concatenation of the per-package blocks. -/
theorem foldl_append_pair {α β γ : Type} (g : α → List β × List γ) :
    ∀ (l : List α) (e : List β) (t : List γ),
      l.foldl (fun acc p => (acc.1 ++ (g p).1, acc.2 ++ (g p).2)) (e, t)
        = (e ++ (l.map (fun p => (g p).1)).flatten, t ++ (l.map (fun p => (g p).2)).flatten)
  | [], e, t => by simp
  | p :: l, e, t => by
    simp only [List.foldl_cons, List.map_cons, List.flatten]
    rw [foldl_append_pair g l]
    simp [List.append_assoc]

/-- The success fold of the aggregation loop equals `&&` over all
verdicts. -/
theorem foldl_and_eq_all {α : Type} (f : α → Bool) :
    ∀ (l : List α) (b : Bool),
      l.foldl (fun s x => if f x then s else false) b = (b && l.all f)
  | [], b => by simp
  | x :: l, b => by
    rw [List.foldl_cons, foldl_and_eq_all f l, List.all_cons]
    cases h : f x <;> simp [h, Bool.and_assoc, Bool.and_comm]

/-- `contains` agrees with list membership (the `HashSet::contains` of the
source). -/
theorem contains_true_iff_mem {α : Type} [BEq α] [LawfulBEq α] (l : List α) (a : α) :
    l.contains a = true ↔ a ∈ l :=
  List.elem_iff

/-- Whatever the selection mode, a successful `selected_packages` result
is `meta.packages` filtered by some base id set and the exclusion list. -/
theorem selected_packages_eq_filter (s : Scope) (meta : Metadata) (sel : List Package)
    (h : s.selected_packages meta = some sel) :
    ∃ ids : List PackageId,
      sel = meta.packages.filter
        (fun p => ids.contains p.id && !(s.excluded_packages.contains p.name)) := by
  simp only [Scope.selected_packages, Option.map_eq_some'] at h
  obtain ⟨ids, -, hf⟩ := h
  exact ⟨ids, hf.symm⟩

/-- Claim C2: in every selection mode and for every exclusion list, no
package whose name appears in the exclusion list is in the set returned
by `Scope::selected_packages` — the exclusion filter is applied last,
against the base set of any mode. -/
theorem C2_excluded_never_selected (s : Scope) (meta : Metadata)
    (sel : List Package) (p : Package)
    (hsel : s.selected_packages meta = some sel) (hmem : p ∈ sel) :
    p.name ∉ s.excluded_packages := by
  obtain ⟨ids, rfl⟩ := selected_packages_eq_filter s meta sel hsel
  rw [List.mem_filter] at hmem
  have h2 := hmem.2
  rw [Bool.and_eq_true, Bool.not_eq_true'] at h2
  intro hc
  rw [← contains_true_iff_mem s.excluded_packages p.name] at hc
  rw [h2.2] at hc
  exact Bool.false_ne_true hc

/-- Claim C2 witness: with workspace selection over `meta1` and exclusion
list `["b"]`, the selected package `a` is not excluded. -/
theorem C2_excluded_never_selected_witness :
    pkgA.name ∉ (Scope.mk .Workspace ["b"]).excluded_packages :=
  C2_excluded_never_selected (Scope.mk .Workspace ["b"]) meta1 [pkgA] pkgA
    (by decide) (by decide)

/-- Claim C3: in explicit-list mode `Scope::selected_packages` always
returns a set (no error path exists), and — when workspace package ids
are distinct, as cargo guarantees — that set is exactly the intersection
of the requested names with the workspace member set, minus exclusions:
a requested name that names no workspace member is silently omitted. -/
theorem C3_explicit_list_intersection (s : Scope) (meta : Metadata)
    (patterns : List String)
    (hmode : s.selection = .Packages patterns)
    (hnodup : (meta.packages.map Package.id).Nodup) :
    ∃ sel, s.selected_packages meta = some sel ∧
      ∀ p, p ∈ sel ↔
        (p ∈ meta.packages ∧ p.id ∈ meta.workspace_members
          ∧ p.name ∈ patterns ∧ p.name ∉ s.excluded_packages) := by
  refine ⟨meta.packages.filter
      (fun p => ((meta.packages.filter
          (fun q => meta.workspace_members.contains q.id && patterns.contains q.name)).map
            Package.id).contains p.id
        && !(s.excluded_packages.contains p.name)), ?_, ?_⟩
  · simp only [Scope.selected_packages, hmode, Option.map_some']
  · intro p
    rw [List.mem_filter, Bool.and_eq_true, Bool.not_eq_true']
    constructor
    · rintro ⟨hp, hid, hexcl⟩
      rw [contains_true_iff_mem, List.mem_map] at hid
      obtain ⟨q, hq, hqid⟩ := hid
      rw [List.mem_filter, Bool.and_eq_true] at hq
      have hpq : q = p :=
        List.inj_on_of_nodup_map hnodup hq.1 hp hqid
      rw [hpq] at hq
      refine ⟨hp, (contains_true_iff_mem _ _).mp hq.2.1,
        (contains_true_iff_mem _ _).mp hq.2.2, ?_⟩
      intro hc
      rw [← contains_true_iff_mem s.excluded_packages p.name, hexcl] at hc
      exact Bool.false_ne_true hc
    · rintro ⟨hp, hid, hname, hexcl⟩
      refine ⟨hp, ?_, ?_⟩
      · rw [contains_true_iff_mem, List.mem_map]
        refine ⟨p, ?_, rfl⟩
        rw [List.mem_filter, Bool.and_eq_true, contains_true_iff_mem,
          contains_true_iff_mem]
        exact ⟨hp, hid, hname⟩
      · rw [Bool.eq_false_iff]
        intro hc
        rw [contains_true_iff_mem] at hc
        exact hexcl hc

/-- Claim C3 witness: requesting `a` and the non-member name `ghost`
over `meta1` succeeds and selects exactly the member `a`; `ghost` is
silently dropped. -/
theorem C3_explicit_list_intersection_witness :
    ∃ sel,
      (Scope.mk (.Packages ["a", "ghost"]) []).selected_packages meta1 = some sel ∧
      ∀ p, p ∈ sel ↔
        (p ∈ meta1.packages ∧ p.id ∈ meta1.workspace_members
          ∧ p.name ∈ ["a", "ghost"]
          ∧ p.name ∉ (Scope.mk (.Packages ["a", "ghost"]) []).excluded_packages) :=
  C3_explicit_list_intersection (Scope.mk (.Packages ["a", "ghost"]) []) meta1
    ["a", "ghost"] rfl (by decide)

/-- Claim C6 counterexample: on metadata missing its dependency-resolution
data, scope resolution (in the default default-members mode) surfaces no
configuration error: it hits the `expect("no-deps is unsupported")` panic
(modelled as `none`), and `check_release` accordingly aborts with a crash
that is not a `CheckErr.config` for any message. -/
theorem C6_counterexample :
    (Scope.mk .DefaultMembers []).selected_packages metaNoResolve = none
      ∧ (Check.new.check_release envNoResolve).2
          = .error (.crash "no-deps is unsupported")
      ∧ ∀ msg, (Check.new.check_release envNoResolve).2 ≠ .error (.config msg) := by
  refine ⟨rfl, rfl, ?_⟩
  intro msg h
  rw [show (Check.new.check_release envNoResolve).2
      = Except.error (CheckErr.crash "no-deps is unsupported") from rfl] at h
  exact CheckErr.noConfusion (Except.error.inj h)

/-- Claim C6 amended: metadata-loading failures abort `check_release`
before scope resolution runs (they happen inside `manifest_metadata`);
scope resolution itself never fails except in exactly one case — when the
selection mode is default-members and the metadata lacks its
dependency-resolution data, it panics through
`expect("no-deps is unsupported")` rather than returning a
`ConfigurationError`. -/
theorem C6_resolution_crash_characterization (s : Scope) (meta : Metadata) :
    s.selected_packages meta = none
      ↔ (s.selection = .DefaultMembers ∧ meta.resolve = none) := by
  cases hs : s.selection with
  | Packages patterns => simp [Scope.selected_packages, hs]
  | Workspace => simp [Scope.selected_packages, hs]
  | DefaultMembers =>
    cases hr : meta.resolve with
    | none => simp [Scope.selected_packages, hs, hr]
    | some resolve =>
      cases hroot : resolve.root <;>
        simp [Scope.selected_packages, hs, hr, hroot]

/-- Claim C7: in default-members mode with resolution data present, scope
resolution selects the resolve root package when one is exposed, and falls
back to exactly the whole-workspace selection when the build graph exposes
no default root. -/
theorem C7_default_members (s : Scope) (meta : Metadata) (res : Resolve)
    (hmode : s.selection = .DefaultMembers)
    (hres : meta.resolve = some res) :
    (res.root = none →
        s.selected_packages meta
          = (Scope.mk .Workspace s.excluded_packages).selected_packages meta)
      ∧ ∀ root, res.root = some root →
          s.selected_packages meta
            = some (meta.packages.filter
                (fun p => decide (p.id = root)
                  && !(s.excluded_packages.contains p.name))) := by
  constructor
  · intro hroot
    simp [Scope.selected_packages, hmode, hres, hroot]
  · intro root hroot
    simp [Scope.selected_packages, hmode, hres, hroot]

/-- Claim C7 witness: over `metaRootA` (default root `a`) in
default-members mode, the selection is the filter keeping exactly the
root package. -/
theorem C7_default_members_witness :
    (({ root := some pkgA.id } : Resolve).root = none →
        (Scope.mk .DefaultMembers []).selected_packages metaRootA
          = (Scope.mk .Workspace []).selected_packages metaRootA)
      ∧ ∀ root, ({ root := some pkgA.id } : Resolve).root = some root →
          (Scope.mk .DefaultMembers []).selected_packages metaRootA
            = some (metaRootA.packages.filter
                (fun p => decide (p.id = root)
                  && !((Scope.mk .DefaultMembers
                      ([] : List String)).excluded_packages.contains p.name))) :=
  C7_default_members (Scope.mk .DefaultMembers []) metaRootA
    { root := some pkgA.id } rfl rfl

/-- Claim C1: for every run of `check_release` that reaches the
aggregation step (the current-side step produced the `rustdoc_paths`
list and the run returns a `Report`), the `Report`'s success flag equals
the logical AND (`List.all`) of the per-package `run_check_release`
verdicts; in particular, an empty package set yields `success = true`. -/
theorem C1_report_success_is_and (c : Check) (env : Env)
    (tr tr2 : List Effect) (r : Report) (paths : List Triple)
    (hrun : c.check_release env = (tr, .ok r))
    (hcur : c.currentStep env = (tr2, .ok paths)) :
    r.success = paths.all (fun t => env.run_check t.1 t.2.2 t.2.1)
      ∧ (paths = [] → r.success = true) := by
  unfold Check.check_release at hrun
  rcases hls : c.loaderStep with ⟨ltr, lres⟩
  rw [hls] at hrun
  cases lres with
  | error e =>
    exact absurd (congrArg Prod.snd hrun) (by simp)
  | ok u =>
    cases u
    rw [hcur] at hrun
    have h2 := congrArg Prod.snd hrun
    simp only [Except.ok.injEq] at h2
    have hsucc : r.success = aggregate_success env paths := by
      rw [← h2]
    rw [hsucc]
    constructor
    · unfold aggregate_success
      rw [foldl_and_eq_all]
      exact Bool.true_and _
    · intro hp
      subst hp
      rfl

/-- Claim C1 witness: the default check over an empty workspace reaches
aggregation with an empty package set and reports success. -/
theorem C1_report_success_is_and_witness :
    (Report.mk true).success
        = ([] : List Triple).all (fun t => env0.run_check t.1 t.2.2 t.2.1)
      ∧ (([] : List Triple) = [] → (Report.mk true).success = true) :=
  C1_report_success_is_and Check.new env0
    [.metadataExecNoDeps, .registryNew, .metadataExec] [.metadataExec]
    (Report.mk true) [] rfl rfl

/-- Claim C4 counterexample: configuring two baseline kinds in sequence
(`with_baseline_version` then `with_baseline_revision`) surfaces no
`ConfigurationError` anywhere: the second selection silently replaces the
first, and the resulting run proceeds all the way through git fetch work
to a successful `Report`. -/
theorem C4_counterexample :
    ((Check.new.with_baseline_version "1.0.0").with_baseline_revision "abc").baseline
        = Baseline.Revision "abc"
      ∧ (((Check.new.with_baseline_version "1.0.0").with_baseline_revision
            "abc").check_release env0).2
          = .ok { success := true }
      ∧ Effect.gitFetch "abc"
          ∈ (((Check.new.with_baseline_version "1.0.0").with_baseline_revision
              "abc").check_release env0).1 := by
  refine ⟨rfl, rfl, ?_⟩
  rw [show (((Check.new.with_baseline_version "1.0.0").with_baseline_revision
      "abc").check_release env0).1
      = [Effect.metadataExecNoDeps, Effect.gitFetch "abc", Effect.metadataExec] from rfl]
  exact List.mem_cons_of_mem _ (List.mem_cons_self _ _)

/-- Claim C4 amended: the five baseline variants are mutually exclusive by
construction — a `Check` always holds exactly one `Baseline` variant, each
`with_baseline_*` setter overwrites whatever was selected before (the last
setter wins), and a fresh `Check` defaults to `LatestVersion`; no
`ConfigurationError` is raised for multiple selections because a
configuration with more than one active baseline kind cannot exist. -/
theorem C4_baseline_setters_exclusive (c : Check) (v rev rootPath docPath : String) :
    (c.with_baseline_version v).baseline = Baseline.Version v
      ∧ (c.with_baseline_revision rev).baseline = Baseline.Revision rev
      ∧ (c.with_baseline_root rootPath).baseline = Baseline.Root rootPath
      ∧ (c.with_baseline_rustdoc docPath).baseline = Baseline.RustDoc docPath
      ∧ Check.new.baseline = Baseline.LatestVersion :=
  ⟨rfl, rfl, rfl, rfl, rfl⟩

/-- Closed form of the package loop of `check_release` on the manifest /
current-directory path: the effect trace and the `rustdoc_paths` triples
are the in-order concatenations of the per-package blocks. -/
theorem currentStep_manifest (c : Check) (env : Env) (sel : List Package)
    (hcur : c.current = .CurrentDir ∨ ∃ m, c.current = .Manifest m)
    (hsel : c.scope.selected_packages env.metadata = some sel) :
    c.currentStep env
      = (Effect.metadataExec :: (sel.map (fun p => (c.pkgBlock env p).1)).flatten,
        .ok ((sel.map (fun p => (c.pkgBlock env p).2)).flatten)) := by
  unfold Check.currentStep
  rcases hcur with h | ⟨m, h⟩ <;>
    rw [h] <;>
    simp only [] <;>
    rw [hsel] <;>
    simp only [] <;>
    rw [foldl_append_pair (c.pkgBlock env) sel [Effect.metadataExec] []] <;>
    simp

/-- In implied whole-workspace scope, the names of the processed snapshot
pairs are exactly the selected packages that are publishable, in order. -/
theorem pkgBlock_names_workspace (c : Check) (env : Env)
    (hw : c.scope.selection = .Workspace) :
    ∀ sel : List Package,
      ((sel.map (fun p => (c.pkgBlock env p).2)).flatten).map (fun t => t.1)
        = (sel.filter (fun p => !decide (p.publish = some []))).map Package.name
  | [] => rfl
  | p :: l => by
    simp only [List.map_cons, List.flatten_cons, List.map_append, List.filter_cons]
    rw [pkgBlock_names_workspace c env hw l]
    unfold Check.pkgBlock
    rw [hw]
    by_cases hp : p.publish = some []
    · simp [hp]
    · simp [hp]

/-- In explicit package-list scope, every selected package is processed:
no package is skipped for being non-publishable. -/
theorem pkgBlock_names_packages (c : Check) (env : Env) (pats : List String)
    (hw : c.scope.selection = .Packages pats) :
    ∀ sel : List Package,
      ((sel.map (fun p => (c.pkgBlock env p).2)).flatten).map (fun t => t.1)
        = sel.map Package.name
  | [] => rfl
  | p :: l => by
    simp only [List.map_cons, List.flatten_cons, List.map_append]
    rw [pkgBlock_names_packages c env pats hw l]
    unfold Check.pkgBlock
    rw [hw]
    simp

/-- Claim C5: on the manifest path, the current-side step always succeeds
(skipping is not an error), in implied whole-workspace scope a selected
package marked non-publishable (`publish == Some(vec![])`) is skipped —
the processed snapshot pairs are exactly the publishable selected
packages — and in explicit package-list scope every selected package is
processed, never silently skipped for being non-publishable. -/
theorem C5_workspace_skips_nonpublishable (c : Check) (env : Env) (sel : List Package)
    (hcur : c.current = .CurrentDir ∨ ∃ m, c.current = .Manifest m)
    (hsel : c.scope.selected_packages env.metadata = some sel) :
    ∃ tr paths, c.currentStep env = (tr, .ok paths)
      ∧ (c.scope.selection = .Workspace →
          paths.map (fun t => t.1)
            = (sel.filter (fun p => !decide (p.publish = some []))).map Package.name)
      ∧ ∀ pats, c.scope.selection = .Packages pats →
          paths.map (fun t => t.1) = sel.map Package.name := by
  refine ⟨_, _, currentStep_manifest c env sel hcur hsel, ?_, ?_⟩
  · intro hw
    exact pkgBlock_names_workspace c env hw sel
  · intro pats hw
    exact pkgBlock_names_packages c env pats hw sel

/-- Claim C5 witness: a workspace-scoped check over `meta1` processes only
the publishable `a`, skipping the non-publishable `b`, and still
succeeds. -/
theorem C5_workspace_skips_nonpublishable_witness :
    ∃ tr paths,
      (Check.mk (Scope.mk .Workspace []) .CurrentDir .LatestVersion).currentStep env1
          = (tr, .ok paths)
        ∧ ((Scope.mk .Workspace ([] : List String)).selection = .Workspace →
            paths.map (fun t => t.1)
              = (([pkgA, pkgB].filter
                  (fun p => !decide (p.publish = some []))).map Package.name))
        ∧ ∀ pats, (Scope.mk .Workspace ([] : List String)).selection = .Packages pats →
            paths.map (fun t => t.1) = [pkgA, pkgB].map Package.name :=
  C5_workspace_skips_nonpublishable
    (Check.mk (Scope.mk .Workspace []) .CurrentDir .LatestVersion) env1
    [pkgA, pkgB] (Or.inl rfl) rfl

/-- Claim C9: on the manifest path, packages are processed in exactly the
order `selected_packages` produced, and within each processed package the
current snapshot is dumped strictly before its baseline is requested: the
effect trace is the in-order concatenation of per-package
`[dump, loadBaseline]` blocks (skipped packages contribute nothing). -/
theorem C9_ordering (c : Check) (env : Env) (sel : List Package)
    (hcur : c.current = .CurrentDir ∨ ∃ m, c.current = .Manifest m)
    (hsel : c.scope.selected_packages env.metadata = some sel) :
    (c.currentStep env).1
      = Effect.metadataExec
        :: (sel.map (fun p =>
            if c.scope.selection = ScopeSelection.Workspace ∧ p.publish = some []
            then ([] : List Effect)
            else [Effect.dump p.manifest_path,
                  Effect.loadBaseline p.name (some p.version)])).flatten := by
  rw [currentStep_manifest c env sel hcur hsel]
  simp only [Check.pkgBlock, apply_ite]

/-- Claim C9 witness: the workspace-scoped check over `meta1` dumps `a`'s
current snapshot and then requests `a`'s baseline; the skipped `b`
contributes no effects. -/
theorem C9_ordering_witness :
    ((Check.mk (Scope.mk .Workspace []) .CurrentDir .LatestVersion).currentStep env1).1
      = Effect.metadataExec
        :: ([pkgA, pkgB].map (fun p =>
            if (Scope.mk .Workspace ([] : List String)).selection
                  = ScopeSelection.Workspace ∧ p.publish = some []
            then ([] : List Effect)
            else [Effect.dump p.manifest_path,
                  Effect.loadBaseline p.name (some p.version)])).flatten :=
  C9_ordering (Check.mk (Scope.mk .Workspace []) .CurrentDir .LatestVersion) env1
    [pkgA, pkgB] (Or.inl rfl) rfl

/-- Claim C8: a prebuilt current rustdoc combined with a baseline that
needs the project manifest (published version, git revision, or
latest-published) aborts `check_release` with the configuration error
bailed by `Check::manifest_path`, before any work at all: the effect
trace is empty, so no fetch or generate work began. -/
theorem C8_rustdoc_current_conflicting_baseline (c : Check) (env : Env) (p : String)
    (hcur : c.current = .RustDoc p)
    (hbase : (∃ v, c.baseline = .Version v) ∨ (∃ rev, c.baseline = .Revision rev)
        ∨ c.baseline = .LatestVersion) :
    c.check_release env
      = ([], .error (.config "error: RustDoc is not supported with these arguments.")) := by
  have hmp : c.manifest_path
      = .error "error: RustDoc is not supported with these arguments." := by
    unfold Check.manifest_path
    rw [hcur]
  have hls : c.loaderStep
      = ([], .error (.config "error: RustDoc is not supported with these arguments.")) := by
    unfold Check.loaderStep
    rcases hbase with ⟨v, hb⟩ | ⟨rev, hb⟩ | hb <;> rw [hb, hmp]
  unfold Check.check_release
  rw [hls]

/-- Claim C8 witness: a prebuilt current rustdoc with a registry-version
baseline aborts eagerly with the configuration error and an empty effect
trace. -/
theorem C8_rustdoc_current_conflicting_baseline_witness :
    (Check.mk (Scope.mk .DefaultMembers []) (.RustDoc "cur.json")
        (.Version "1.0.0")).check_release env1
      = ([], .error (.config "error: RustDoc is not supported with these arguments.")) :=
  C8_rustdoc_current_conflicting_baseline
    (Check.mk (Scope.mk .DefaultMembers []) (.RustDoc "cur.json") (.Version "1.0.0"))
    env1 "cur.json" rfl (Or.inl ⟨"1.0.0", rfl⟩)

/-- Claim C10 counterexample: with a prebuilt current rustdoc but a
registry-version baseline, `check_release` performs zero comparisons —
it aborts on the manifest-path configuration error — not exactly one. -/
theorem C10_counterexample :
    (((Check.mk (Scope.mk .DefaultMembers []) (.RustDoc "cur.json")
          (.Version "1.0.0")).check_release env1).1.filter
        (fun e => match e with | .runCheck _ => true | _ => false)).length = 0
      ∧ ((Check.mk (Scope.mk .DefaultMembers []) (.RustDoc "cur.json")
            (.Version "1.0.0")).check_release env1).2
          = .error (.config "error: RustDoc is not supported with these arguments.") :=
  ⟨rfl, rfl⟩

/-- Claim C10 amended: when the current side is a prebuilt rustdoc file,
the project scope is never consulted — the outcome of `check_release` is
identical for every selection mode and exclusion list — and every run
that returns a `Report` performs exactly one comparison, whose baseline
was requested under the placeholder crate name `"<unknown>"` with no
version; runs whose baseline needs the project manifest abort with a
configuration error and perform no comparison at all. -/
theorem C10_rustdoc_current_scope_and_single (c : Check) (env : Env) (p : String)
    (hcur : c.current = .RustDoc p) :
    (∀ s, (Check.mk s c.current c.baseline).check_release env = c.check_release env)
      ∧ ∀ tr r, c.check_release env = (tr, .ok r) →
          tr.filter (fun e => match e with | .runCheck _ => true | _ => false)
              = [.runCheck "<unknown>"]
            ∧ Effect.loadBaseline "<unknown>" none ∈ tr := by
  obtain ⟨sc, cur, base⟩ := c
  have hc : cur = Current.RustDoc p := hcur
  subst hc
  constructor
  · intro s
    cases base <;> rfl
  · intro tr r h
    cases base with
    | Version v => exact Except.noConfusion (congrArg Prod.snd h)
    | Revision rev => exact Except.noConfusion (congrArg Prod.snd h)
    | LatestVersion => exact Except.noConfusion (congrArg Prod.snd h)
    | Root rootPath =>
      have ht : ((Check.mk sc (Current.RustDoc p)
            (Baseline.Root rootPath)).check_release env).1 = tr :=
        congrArg Prod.fst h
      rw [← ht]
      exact ⟨rfl, List.mem_cons_of_mem _ (List.mem_cons_self _ _)⟩
    | RustDoc docPath =>
      have ht : ((Check.mk sc (Current.RustDoc p)
            (Baseline.RustDoc docPath)).check_release env).1 = tr :=
        congrArg Prod.fst h
      rw [← ht]
      exact ⟨rfl, List.mem_cons_self _ _⟩

/-- Claim C10 witness: a prebuilt current rustdoc with a prebuilt baseline
rustdoc ignores the scope and performs exactly the one `"<unknown>"`
comparison. -/
theorem C10_rustdoc_current_scope_and_single_witness :
    (∀ s, (Check.mk s (Check.mk (Scope.mk .DefaultMembers []) (.RustDoc "cur.json")
            (.RustDoc "base.json")).current
          (Check.mk (Scope.mk .DefaultMembers []) (.RustDoc "cur.json")
            (.RustDoc "base.json")).baseline).check_release env1
        = (Check.mk (Scope.mk .DefaultMembers []) (.RustDoc "cur.json")
            (.RustDoc "base.json")).check_release env1)
      ∧ ∀ tr r,
          (Check.mk (Scope.mk .DefaultMembers []) (.RustDoc "cur.json")
              (.RustDoc "base.json")).check_release env1 = (tr, .ok r) →
            tr.filter (fun e => match e with | .runCheck _ => true | _ => false)
                = [.runCheck "<unknown>"]
              ∧ Effect.loadBaseline "<unknown>" none ∈ tr :=
  C10_rustdoc_current_scope_and_single
    (Check.mk (Scope.mk .DefaultMembers []) (.RustDoc "cur.json") (.RustDoc "base.json"))
    env1 "cur.json" rfl

end CargoSemverChecks
